import Mathlib

/-!
Verification of the e-learning single-page application in `src/src/App.jsx`.

The JavaScript source is shallowly embedded: the mock API object becomes a
namespace of pure functions returning `Except ApiError _`; JavaScript `null`
for the token is `Option String` with `none`; JavaScript truthiness of a
string-or-null token is the predicate `jsTruthy`; the React component state
(`token`, `user`, `loading` in `App`, and `courses`, `recommendations`,
`loading` in `Dashboard`) becomes explicit record states, with each
`useEffect` continuation embedded as a state-transition function on those
records.
-/

/-- Error values thrown by the mock API (`throw new Error(...)` in App.jsx). -/
inductive ApiError where
  | invalidCredentials
  | notAuthenticated
  deriving DecidableEq, Repr

/-- Result of `api.login` (App.jsx line 15): an access token and its type. -/
structure TokenResponse where
  access_token : String
  token_type : String
  deriving DecidableEq, Repr

/-- User profile returned by `api.getMe` (App.jsx lines 23-28). -/
structure Profile where
  id : Nat
  username : String
  email : String
  enrolled_courses : List Nat
  deriving DecidableEq, Repr

/-- A catalog course as returned by `api.getCourses` (App.jsx lines 36-40). -/
structure Course where
  id : Nat
  title : String
  category : String
  difficulty : String
  deriving DecidableEq, Repr

/-- A recommendation as returned by `api.getRecommendations`
(App.jsx lines 49-50): a course record plus a `reason` string. -/
structure Recommendation where
  id : Nat
  title : String
  category : String
  difficulty : String
  reason : String
  deriving DecidableEq, Repr

/-- JavaScript truthiness of a `string | null` value: `null` and the empty
string are falsy, every other string is truthy. -/
def jsTruthy : Option String → Bool
  | none => false
  | some s => s ≠ ""

namespace api

/-- Embeds `api.login` (App.jsx lines 10-18): succeeds exactly on the pair
`("testuser", "password")`, returning the fixed fake token; otherwise throws
`Invalid credentials`. -/
def login (username password : String) : Except ApiError TokenResponse :=
  if username = "testuser" ∧ password = "password" then
    .ok { access_token := "fake-jwt-token", token_type := "bearer" }
  else
    .error .invalidCredentials

/-- The fixed profile returned by `api.getMe` on any truthy token
(App.jsx lines 23-28). -/
def meProfile : Profile :=
  { id := 1, username := "testuser", email := "test@example.com",
    enrolled_courses := [101, 103] }

/-- Embeds `api.getMe` (App.jsx lines 20-31): `if (token)` — any truthy token
yields the fixed profile, a falsy token throws `Not authenticated`. -/
def getMe (token : Option String) : Except ApiError Profile :=
  if jsTruthy token then .ok meProfile else .error .notAuthenticated

/-- The fixed five-course catalog returned by `api.getCourses`
(App.jsx lines 35-41). -/
def mockCourses : List Course :=
  [ { id := 101, title := "Introduction to Python", category := "Programming",
      difficulty := "Beginner" },
    { id := 102, title := "Advanced Python", category := "Programming",
      difficulty := "Advanced" },
    { id := 103, title := "Data Science with Pandas", category := "Data Science",
      difficulty := "Intermediate" },
    { id := 104, title := "Machine Learning Fundamentals", category := "Data Science",
      difficulty := "Intermediate" },
    { id := 105, title := "Web Development with React", category := "Web Development",
      difficulty := "Beginner" } ]

/-- Embeds `api.getCourses` (App.jsx lines 33-42): always succeeds with the
fixed catalog. -/
def getCourses : List Course := mockCourses

/-- The fixed two-element recommendation list returned by
`api.getRecommendations` on any truthy token (App.jsx lines 48-51). -/
def mockRecommendations : List Recommendation :=
  [ { id := 102, title := "Advanced Python", category := "Programming",
      difficulty := "Advanced",
      reason := "Because you are taking \x27Introduction to Python\x27" },
    { id := 104, title := "Machine Learning Fundamentals",
      category := "Data Science", difficulty := "Intermediate",
      reason := "Because you are taking \x27Data Science with Pandas\x27" } ]

/-- Embeds `api.getRecommendations` (App.jsx lines 44-54): `if (token)` — any
truthy token yields the fixed list (independent of `userId`), a falsy token
throws `Not authenticated`. -/
def getRecommendations (_userId : Nat) (token : Option String) :
    Except ApiError (List Recommendation) :=
  if jsTruthy token then .ok mockRecommendations else .error .notAuthenticated

end api

/-- Props handed to one `CourseCard` (App.jsx lines 59-69, call sites at
lines 171 and 178): the course fields, `isEnrolled` (absent for
recommendation cards — an absent prop is falsy, embedded as `false`), and an
optional `reason`. The JSX `key` uses the course id, which is kept here. -/
structure CourseCardProps where
  id : Nat
  title : String
  category : String
  difficulty : String
  isEnrolled : Bool
  reason : Option String
  deriving DecidableEq, Repr

/-- The card built for one recommendation (App.jsx line 171):
`<CourseCard course={rec} reason={rec.reason} />` — no `isEnrolled` prop. -/
def recCard (r : Recommendation) : CourseCardProps :=
  { id := r.id, title := r.title, category := r.category,
    difficulty := r.difficulty, isEnrolled := false, reason := some r.reason }

/-- The card built for one catalog course (App.jsx line 178):
`<CourseCard course={course} isEnrolled={enrolledCourseIds.has(course.id)} />`.
The `enrolledCourseIds` set (line 153) is embedded as a list with `.has` as
membership. -/
def courseCard (enrolledCourseIds : List Nat) (c : Course) : CourseCardProps :=
  { id := c.id, title := c.title, category := c.category,
    difficulty := c.difficulty, isEnrolled := enrolledCourseIds.contains c.id,
    reason := none }

/-- The render-ready dashboard view model: the two card grids of the
`Dashboard` component, in render order. -/
structure DashboardViewModel where
  recCards : List CourseCardProps
  courseCards : List CourseCardProps
  deriving DecidableEq, Repr

/-- Embeds the `Dashboard` render body (App.jsx lines 159-182): the
recommendation section maps `recommendations` in order through `recCard`, the
catalog section maps `courses` in order through `courseCard` with the
enrolled-id set from the profile. This is the `aggregate` of the spec. -/
def aggregate (courses : List Course) (recommendations : List Recommendation)
    (enrolledCourseIds : List Nat) : DashboardViewModel :=
  { recCards := recommendations.map recCard,
    courseCards := courses.map (courseCard enrolledCourseIds) }

/-- State of the top-level `App` component (App.jsx lines 188-190):
`token`, `user` and the initial-loading flag. -/
structure AppState where
  token : Option String
  user : Option Profile
  loading : Bool
  deriving DecidableEq, Repr

/-- The initial `App` state (App.jsx lines 188-190): no token, no user,
loading true. -/
def initialAppState : AppState :=
  { token := none, user := none, loading := true }

/-- Embeds the body of `fetchUser` in the `App` effect (App.jsx lines
194-205) run to completion with the `api.getMe` call resolving
synchronously: if the token is truthy, a successful fetch stores the user and
a failure clears the token; in every case `loading` becomes false. The
returned boolean records whether `api.getMe` was called at all (the
`if (token)` guard at line 195). -/
def fetchUserStep (s : AppState) : AppState × Bool :=
  if jsTruthy s.token then
    match api.getMe s.token with
    | .ok u => ({ s with user := some u, loading := false }, true)
    | .error _ => ({ s with token := none, loading := false }, true)
  else
    ({ s with loading := false }, false)

/-- Embeds only the continuation of the `App` effect after `api.getMe`
resolves (App.jsx lines 196-203), applied to an arbitrary already-resolved
result. This separates the await point so that interleavings where the token
changes while the fetch is in flight can be expressed: the state `s` is the
state at resolution time, which may differ from the state at dispatch time. -/
def resolveFetchUser (result : Except ApiError Profile) (s : AppState) :
    AppState :=
  match result with
  | .ok u => { s with user := some u, loading := false }
  | .error _ => { s with token := none, loading := false }

/-- Embeds `LoginScreen.handleLogin` (App.jsx lines 77-89) at the session
level: on success the token from the response is stored via `setToken`; on
failure only the local `error` text of the form changes, so the session state
is untouched. -/
def handleLogin (username password : String) (s : AppState) : AppState :=
  match api.login username password with
  | .ok data => { s with token := some data.access_token }
  | .error _ => s

/-- Embeds the Logout button handler `() => setToken(null)` (App.jsx line
163) together with the re-run of the `App` effect it triggers (the effect
depends on `[token]`, line 207): the token becomes null, then `fetchUser`
runs on the new state. -/
def logout (s : AppState) : AppState :=
  (fetchUserStep { s with token := none }).1

/-- The three screens `App` can render (App.jsx lines 209-221). -/
inductive Screen where
  | authenticating
  | loginScreen
  | dashboard
  deriving DecidableEq, Repr

/-- Embeds the `App` render decision (App.jsx lines 209-221): the loading
splash while `loading`, the login screen when the token or the user is
missing, the dashboard otherwise. -/
def renderApp (s : AppState) : Screen :=
  if s.loading then .authenticating
  else if ¬ jsTruthy s.token ∨ s.user = none then .loginScreen
  else .dashboard

/-- State of the `Dashboard` component (App.jsx lines 127-129): the two
fetched lists and its loading flag. -/
structure DashState where
  courses : List Course
  recommendations : List Recommendation
  loading : Bool
  deriving DecidableEq, Repr

/-- The initial `Dashboard` state (App.jsx lines 127-129): empty lists,
loading true. -/
def initialDashState : DashState :=
  { courses := [], recommendations := [], loading := true }

/-- Embeds the continuation of `fetchData` in the `Dashboard` effect
(App.jsx lines 132-146) after `Promise.all([getCourses, getRecommendations])`
settles, applied to the two already-resolved outcomes. `Promise.all`
fulfills only when both fulfill — then both lists are stored — and rejects
as soon as either rejects, in which case the `catch` block only logs and
neither list is stored; the `finally` block clears `loading` in all cases. -/
def resolveDashboardFetch (coursesResult : Except ApiError (List Course))
    (recsResult : Except ApiError (List Recommendation)) (s : DashState) :
    DashState :=
  match coursesResult, recsResult with
  | .ok cs, .ok rs =>
      { courses := cs, recommendations := rs, loading := false }
  | _, _ => { s with loading := false }

/-- C1: Aggregation preserves order — for every catalog, recommendation list
and enrolled-id set, the rendered dashboard lists the catalog courses in
exactly the catalog order and the recommendations in exactly the service
order, passes each reason through unchanged, and performs no deduplication
against the enrolled set (both card lists keep the full input lengths,
whatever the enrolled set is). -/
theorem C1_aggregate_preserves_order
    (catalog : List Course) (recs : List Recommendation)
    (enrolled : List Nat) :
    ((aggregate catalog recs enrolled).courseCards.map
        (fun p => Course.mk p.id p.title p.category p.difficulty)) = catalog
    ∧ ((aggregate catalog recs enrolled).recCards.map
        (fun p => Recommendation.mk p.id p.title p.category p.difficulty
          (p.reason.getD ""))) = recs
    ∧ ((aggregate catalog recs enrolled).recCards.map CourseCardProps.reason)
        = recs.map (fun r => some r.reason)
    ∧ (aggregate catalog recs enrolled).courseCards.length = catalog.length
    ∧ (aggregate catalog recs enrolled).recCards.length = recs.length := by
  refine ⟨?_, ?_, ?_, ?_, ?_⟩
  · rw [aggregate, List.map_map]
    exact List.map_id catalog
  · rw [aggregate, List.map_map]
    exact List.map_id recs
  · rw [aggregate, List.map_map]
    rfl
  · rw [aggregate]
    exact List.length_map catalog _
  · rw [aggregate]
    exact List.length_map recs _

/-- C2: For every course in the catalog, aggregation marks it with
`isEnrolled` equal to `enrolled.has(course.id)` (the card for the course is
in the view model, and its flag is exactly the set-membership test), and
aggregating again with the same inputs yields the same view model. -/
theorem C2_isEnrolled_marking
    (catalog : List Course) (recs : List Recommendation)
    (enrolled : List Nat) (c : Course) (h : c ∈ catalog) :
    courseCard enrolled c ∈ (aggregate catalog recs enrolled).courseCards
    ∧ (courseCard enrolled c).isEnrolled = enrolled.contains c.id
    ∧ aggregate catalog recs enrolled = aggregate catalog recs enrolled :=
  ⟨List.mem_map_of_mem (courseCard enrolled) h, rfl, rfl⟩

/-- Witness for C2 at the mock data: course 101 of the mock catalog is marked
enrolled under the enrolled set `[101, 103]`. -/
theorem C2_isEnrolled_marking_witness :
    courseCard [101, 103] (Course.mk 101 "Introduction to Python"
        "Programming" "Beginner")
      ∈ (aggregate api.mockCourses api.mockRecommendations
          [101, 103]).courseCards
    ∧ (courseCard [101, 103] (Course.mk 101 "Introduction to Python"
        "Programming" "Beginner")).isEnrolled = List.contains [101, 103] 101
    ∧ aggregate api.mockCourses api.mockRecommendations [101, 103]
      = aggregate api.mockCourses api.mockRecommendations [101, 103] :=
  C2_isEnrolled_marking api.mockCourses api.mockRecommendations [101, 103]
    _ (by simp [api.mockCourses])

/-- C3: Happy path — login with ("testuser", "password") succeeds and issues
a token; fetching the profile with that token yields id 1, username
"testuser" and enrolled ids 101 and 103; the catalog has exactly 5 courses;
recommendations with that token are exactly 2 entries, each with a
non-empty reason. -/
theorem C3_happy_path :
    api.login "testuser" "password"
      = .ok { access_token := "fake-jwt-token", token_type := "bearer" }
    ∧ api.getMe (some "fake-jwt-token") = .ok api.meProfile
    ∧ api.meProfile.id = 1
    ∧ api.meProfile.username = "testuser"
    ∧ api.meProfile.enrolled_courses = [101, 103]
    ∧ api.getCourses.length = 5
    ∧ api.getRecommendations 1 (some "fake-jwt-token")
      = .ok api.mockRecommendations
    ∧ api.mockRecommendations.length = 2
    ∧ ∀ r ∈ api.mockRecommendations, r.reason ≠ "" := by
  refine ⟨rfl, rfl, rfl, rfl, rfl, rfl, rfl, rfl, ?_⟩
  intro r hr
  simp only [api.mockRecommendations, List.mem_cons, List.not_mem_nil,
    or_false] at hr
  rcases hr with h | h <;> subst h <;> decide

/-- C4: For every credential pair other than ("testuser", "password"), login
fails with InvalidCredentials; run from a logged-out session state the
handler stores no token, the session stays logged out (user unchanged, still
rendering the login screen once loading settles), and no profile fetch is
attempted (the getMe call of the token effect is never made). -/
theorem C4_invalid_credentials
    (username password : String) (s : AppState)
    (hcred : ¬(username = "testuser" ∧ password = "password"))
    (htok : s.token = none) :
    api.login username password = .error .invalidCredentials
    ∧ (handleLogin username password s).token = none
    ∧ (fetchUserStep (handleLogin username password s)).2 = false
    ∧ (fetchUserStep (handleLogin username password s)).1.user = s.user := by
  have hl : api.login username password = .error .invalidCredentials := by
    rw [api.login, if_neg hcred]
  have hh : handleLogin username password s = s := by
    rw [handleLogin, hl]
  refine ⟨hl, ?_, ?_, ?_⟩ <;>
    rw [hh] <;> simp [fetchUserStep, htok, jsTruthy]

/-- Witness for C4: the spec scenario login("testuser", "wrongpass") from the
initial state fails, stores no token, and attempts no profile fetch. -/
theorem C4_invalid_credentials_witness :
    api.login "testuser" "wrongpass" = .error .invalidCredentials
    ∧ (handleLogin "testuser" "wrongpass" initialAppState).token = none
    ∧ (fetchUserStep (handleLogin "testuser" "wrongpass" initialAppState)).2
      = false
    ∧ (fetchUserStep (handleLogin "testuser" "wrongpass" initialAppState)).1.user
      = initialAppState.user :=
  C4_invalid_credentials "testuser" "wrongpass" initialAppState
    (by decide) rfl

/-- C5: getMe fails with Unauthenticated exactly when the token is null or
invalid — in this mock, null or the empty string, the falsy values — and
succeeds otherwise; getRecommendations fails with Unauthenticated under
exactly the same condition on the token, whatever the userId. -/
theorem C5_unauthenticated_condition
    (token : Option String) (userId : Nat) :
    (api.getMe token = .error .notAuthenticated
      ↔ (token = none ∨ token = some ""))
    ∧ (¬(token = none ∨ token = some "") → api.getMe token = .ok api.meProfile)
    ∧ (api.getRecommendations userId token = .error .notAuthenticated
      ↔ api.getMe token = .error .notAuthenticated)
    ∧ (¬(token = none ∨ token = some "") →
        api.getRecommendations userId token = .ok api.mockRecommendations) := by
  cases token with
  | none => simp [api.getMe, api.getRecommendations, jsTruthy]
  | some s =>
    by_cases hs : s = ""
    · subst hs
      simp [api.getMe, api.getRecommendations, jsTruthy]
    · simp [api.getMe, api.getRecommendations, jsTruthy, hs]

/-- Witness for C5 at a null token: getMe fails with Unauthenticated. -/
theorem C5_unauthenticated_condition_witness :
    api.getMe none = .error .notAuthenticated :=
  ((C5_unauthenticated_condition none 1).1).mpr (Or.inl rfl)

/-- A concrete LoggedIn state: the token issued by login is stored and the
profile fetch has completed. Used as the concrete input for the logout and
race claims. -/
def loggedInState : AppState :=
  { token := some "fake-jwt-token", user := some api.meProfile,
    loading := false }

/-- A concrete state in which the token has been cleared while a profile
fetch dispatched earlier is still in flight: token null, user not yet set,
loading still true. -/
def clearedTokenPendingState : AppState :=
  { token := none, user := none, loading := true }

/-- C6 counterexample: the Logout handler is only `setToken(null)` and the
token effect never calls `setUser(null)` when the token is null, so from the
concrete LoggedIn state logout leaves the stored user profile in place —
refuting the claim that logout clears both the token and the profile. -/
theorem C6_counterexample :
    (logout loggedInState).user = some api.meProfile
    ∧ (logout loggedInState).user ≠ none := by
  constructor
  · rfl
  · simp [logout, loggedInState, fetchUserStep, jsTruthy]

/-- C6 amended: from any LoggedIn state, Logout clears the token
synchronously, but the stored user profile is NOT cleared — it keeps its
previous value; the application nevertheless returns to the LoggedOut view,
because rendering the dashboard requires a truthy token. -/
theorem C6_logout_amended
    (s : AppState) (htok : jsTruthy s.token = true) (huser : s.user ≠ none) :
    (logout s).token = none
    ∧ (logout s).user = s.user
    ∧ renderApp (logout s) = .loginScreen := by
  refine ⟨?_, ?_, ?_⟩ <;> simp [logout, fetchUserStep, renderApp, jsTruthy]

/-- Witness for C6 amended at the concrete LoggedIn state. -/
theorem C6_logout_amended_witness :
    (logout loggedInState).token = none
    ∧ (logout loggedInState).user = loggedInState.user
    ∧ renderApp (logout loggedInState) = .loginScreen :=
  C6_logout_amended loggedInState (by decide)
    (by simp [loggedInState])

/-- C7 counterexample: there is no stale-response guard in the token effect —
when a profile fetch dispatched earlier resolves successfully after the token
has already been cleared, its continuation still stores the user, so the
final state has a non-null user, refuting the claim that the in-flight result
is discarded and the final state has user = null. -/
theorem C7_counterexample :
    (resolveFetchUser (.ok api.meProfile) clearedTokenPendingState).user
      = some api.meProfile
    ∧ (resolveFetchUser (.ok api.meProfile) clearedTokenPendingState).user
      ≠ none := by
  constructor
  · rfl
  · simp [resolveFetchUser, clearedTokenPendingState]

/-- C7 amended: the code applies an in-flight profile-fetch result even when
the token was cleared while the fetch was outstanding — for every state with
a cleared token, a successful resolution stores the fetched profile (user is
NOT null); the app shows the login screen afterwards only because the token
itself is null. -/
theorem C7_race_amended
    (s : AppState) (u : Profile) (htok : s.token = none) :
    (resolveFetchUser (.ok u) s).user = some u
    ∧ (resolveFetchUser (.ok u) s).user ≠ none
    ∧ renderApp (resolveFetchUser (.ok u) s) = .loginScreen := by
  refine ⟨rfl, by simp [resolveFetchUser], ?_⟩
  simp [resolveFetchUser, renderApp, htok, jsTruthy]

/-- Witness for C7 amended at the concrete cleared-token state. -/
theorem C7_race_amended_witness :
    (resolveFetchUser (.ok api.meProfile) clearedTokenPendingState).user
      = some api.meProfile
    ∧ (resolveFetchUser (.ok api.meProfile) clearedTokenPendingState).user
      ≠ none
    ∧ renderApp (resolveFetchUser (.ok api.meProfile)
        clearedTokenPendingState) = .loginScreen :=
  C7_race_amended clearedTokenPendingState api.meProfile rfl

/-- C8 counterexample: the Dashboard effect awaits
`Promise.all([getCourses(), getRecommendations(...)])`; when the
recommendation fetch rejects, the destructuring of the courses result never
runs, so the catalog data from the fetch that succeeded is NOT kept — the
course list stays at its previous (empty) value, refuting the claim that
data from the succeeded fetch is kept. -/
theorem C8_counterexample :
    (resolveDashboardFetch (.ok api.mockCourses) (.error .notAuthenticated)
        initialDashState).courses = []
    ∧ (resolveDashboardFetch (.ok api.mockCourses) (.error .notAuthenticated)
        initialDashState).courses ≠ api.mockCourses := by
  constructor
  · rfl
  · simp [resolveDashboardFetch, initialDashState, api.mockCourses]

/-- C8 amended: the dashboard leaves Loading (loading becomes false) exactly
when `Promise.all` settles — after both fetches succeed, or as soon as
either fails; on joint success both results are stored; on any failure the
failure is only logged and NEITHER result is applied, so the dashboard
renders with its previous (initially empty) lists — the data from the fetch
that succeeded is discarded, not kept. -/
theorem C8_fanin_amended
    (cs : Except ApiError (List Course))
    (rs : Except ApiError (List Recommendation)) (s : DashState) :
    (resolveDashboardFetch cs rs s).loading = false
    ∧ (∀ c r, cs = .ok c → rs = .ok r →
        resolveDashboardFetch cs rs s
          = { courses := c, recommendations := r, loading := false })
    ∧ (∀ e, cs = .error e →
        resolveDashboardFetch cs rs s = { s with loading := false })
    ∧ (∀ e, rs = .error e →
        resolveDashboardFetch cs rs s = { s with loading := false }) := by
  cases cs <;> cases rs <;> simp [resolveDashboardFetch]

/-- Witness for C8 amended: with a succeeded catalog fetch and a failed
recommendation fetch the whole state keeps its previous lists. -/
theorem C8_fanin_amended_witness :
    resolveDashboardFetch (.ok api.mockCourses) (.error .notAuthenticated)
        initialDashState
      = { initialDashState with loading := false } :=
  (C8_fanin_amended (.ok api.mockCourses) (.error .notAuthenticated)
      initialDashState).2.2.2 .notAuthenticated rfl

/-- C9: Category affinity of the service results — on any truthy token the
recommendation call returns the fixed list, and every recommendation in it
has a category equal to the category of at least one catalog course whose id
is in the profile's enrolled set. -/
theorem C9_category_affinity (userId : Nat) (t : String) (ht : t ≠ "") :
    api.getRecommendations userId (some t) = .ok api.mockRecommendations
    ∧ ∀ r ∈ api.mockRecommendations,
        ∃ eid ∈ api.meProfile.enrolled_courses,
          ∃ c ∈ api.mockCourses, c.id = eid ∧ c.category = r.category := by
  constructor
  · simp [api.getRecommendations, jsTruthy, ht]
  · intro r hr
    simp only [api.mockRecommendations, List.mem_cons, List.not_mem_nil,
      or_false] at hr
    rcases hr with h | h <;> subst h
    · exact ⟨101, by decide, List.head api.mockCourses (by decide),
        by decide, by decide, by decide⟩
    · exact ⟨103, by decide, api.mockCourses.get ⟨2, by decide⟩,
        by decide, by decide, by decide⟩

/-- Witness for C9 at the issued token. -/
theorem C9_category_affinity_witness :
    api.getRecommendations 1 (some "fake-jwt-token")
      = .ok api.mockRecommendations
    ∧ ∀ r ∈ api.mockRecommendations,
        ∃ eid ∈ api.meProfile.enrolled_courses,
          ∃ c ∈ api.mockCourses, c.id = eid ∧ c.category = r.category :=
  C9_category_affinity 1 "fake-jwt-token" (by decide)

/-- C10: For every non-null, non-empty token string — including strings never
issued by login — getMe and getRecommendations succeed, and their results at
any two such tokens (and any two user ids) are identical: the output depends
only on the token's presence, never on its value. -/
theorem C10_token_value_irrelevant
    (t1 t2 : String) (u1 u2 : Nat) (h1 : t1 ≠ "") (h2 : t2 ≠ "") :
    api.getMe (some t1) = .ok api.meProfile
    ∧ api.getRecommendations u1 (some t1) = .ok api.mockRecommendations
    ∧ api.getMe (some t1) = api.getMe (some t2)
    ∧ api.getRecommendations u1 (some t1)
      = api.getRecommendations u2 (some t2) := by
  refine ⟨?_, ?_, ?_, ?_⟩ <;>
    simp [api.getMe, api.getRecommendations, jsTruthy, h1, h2]

/-- Witness for C10 at the issued token and a token never issued by login. -/
theorem C10_token_value_irrelevant_witness :
    api.getMe (some "fake-jwt-token") = .ok api.meProfile
    ∧ api.getRecommendations 1 (some "fake-jwt-token")
      = .ok api.mockRecommendations
    ∧ api.getMe (some "fake-jwt-token") = api.getMe (some "never-issued")
    ∧ api.getRecommendations 1 (some "fake-jwt-token")
      = api.getRecommendations 42 (some "never-issued") :=
  C10_token_value_irrelevant "fake-jwt-token" "never-issued" 1 42
    (by decide) (by decide)
